import Mathlib

/-!
Verification development for the anomaly-detection service
(`src/ai/anomaly_detection.py`).

The Python source is shallowly embedded: pure computations become Lean
functions over `ℚ` / `Int`, the isolation-forest scoring (which is
real-valued through `log` and `2 ^ x`) is embedded over `ℝ`, and code
that can raise a Python exception returns `Except PyError`.  Timestamps
are modelled as already-parsed calendar records (the claims under study
only concern transactions whose ISO-8601 timestamp parses); the record
keeps the timezone offset as an `Option` so that Python's distinction
between offset-naive and offset-aware datetimes — and the `TypeError`
raised when the two are mixed in arithmetic — is preserved.
-/

/- The core `Rat` operations are `@[irreducible]` so that `simp` does not
unfold them; that elaborator-only status also stops `decide` from
evaluating concrete rational arithmetic.  Restoring the default
reducibility lets the concrete evaluations below go through `decide`;
the kernel (which ignores reducibility attributes) checks them as
always. -/
set_option allowUnsafeReducibility true
attribute [semireducible] Rat.mul Rat.inv Rat.add Rat.sub Rat.ofScientific

/-- Python exceptions that the embedded code can raise. -/
inductive PyError where
  | keyError (k : String)
  | typeError (msg : String)
  | nameError (n : String)
deriving DecidableEq, Repr

deriving instance DecidableEq for Except

/-- Message extraction, modelling `str(e)` in the retrain handler. -/
def pyErrMsg : PyError → String
  | PyError.keyError k => k
  | PyError.typeError m => m
  | PyError.nameError n => n

/-- Days since 1970-01-01 for a proleptic-Gregorian calendar date
(the standard civil-from-days algorithm used by `datetime`). -/
def daysFromCivil (y : Int) (m d : Int) : Int :=
  let y1 := if m ≤ 2 then y - 1 else y
  let era := y1 / 400
  let yoe := y1 - era * 400
  let mp := (m + 9) % 12
  let doy := (153 * mp + 2) / 5 + d - 1
  let doe := yoe * 365 + yoe / 4 - yoe / 100 + doy
  era * 146097 + doe - 719468

/-- A parsed timestamp, as produced by `datetime.fromisoformat` /
`pd.to_datetime`.  `tzOffset = none` models an offset-naive datetime;
`tzOffset = some o` an offset-aware one with UTC offset `o` seconds
(the source turns a trailing `Z` into `+00:00`, i.e. `some 0`). -/
structure PyDateTime where
  year : Int
  month : Int
  day : Int
  hour : Int
  minute : Int
  second : Int
  tzOffset : Option Int
deriving DecidableEq, Repr

/-- Seconds since the epoch of the wall-clock fields (offset ignored). -/
def PyDateTime.epochSeconds (t : PyDateTime) : Int :=
  daysFromCivil t.year t.month t.day * 86400 + t.hour * 3600 + t.minute * 60 + t.second

/-- Python `datetime.weekday()`: Monday = 0 … Sunday = 6. -/
def PyDateTime.pyWeekday (t : PyDateTime) : Int :=
  (daysFromCivil t.year t.month t.day + 3) % 7

/-- Comparison/sort key: absolute time for aware datetimes, wall-clock
time for naive ones (only used within a uniformly aware or uniformly
naive collection, matching pandas). -/
def PyDateTime.sortKey (t : PyDateTime) : Int :=
  t.epochSeconds - (t.tzOffset.getD 0)

/-- Python datetime subtraction, in seconds.  Subtracting an
offset-naive from an offset-aware datetime (or vice versa) raises
`TypeError`, exactly as in CPython. -/
def dtSub (a b : PyDateTime) : Except PyError Int :=
  match a.tzOffset, b.tzOffset with
  | none, none => Except.ok (a.epochSeconds - b.epochSeconds)
  | some oa, some ob => Except.ok ((a.epochSeconds - oa) - (b.epochSeconds - ob))
  | _, _ =>
      Except.error (PyError.typeError "cannot subtract offset-naive and offset-aware datetimes")

/-- A transaction as received by the service: a JSON object whose keys
may each be absent (`none`).  `timestamp`, when present, is the parsed
datetime (the claims only concern parseable ISO-8601 timestamps). -/
structure Transaction where
  id : Option String
  amount : Option ℚ
  timestamp : Option PyDateTime
  source_id : Option String
  destination_id : Option String
  fund_category : Option String
  fiscal_year : Option String
  budget_allocated : Option ℚ
  budget_utilized : Option ℚ
deriving DecidableEq, Repr

/-- A historical record, modelled fully populated (the DataFrame columns
`amount`, `timestamp`, `fund_category`, `source_id`, `destination_id`
all exist).  In the Python DataFrame the `timestamp` column holds the
raw ISO-8601 strings until a function converts it; `timestamp` here is
the parsed value of that string. -/
structure HistRecord where
  amount : ℚ
  timestamp : PyDateTime
  fund_category : String
  source_id : String
  destination_id : String
deriving DecidableEq, Repr

/-- `required_fields = ['id', 'amount', 'timestamp']` membership test
used by both endpoints. -/
def hasRequiredFields (t : Transaction) : Bool :=
  t.id.isSome && t.amount.isSome && t.timestamp.isSome

/-- `calculate_entity_risk_score` (source lines 192-219).  The first two
branches return 0.1 and 0.2.  The remaining branch computes
`entity_txns['timestamp'].max() - entity_txns['timestamp'].min()` on the
raw string column — this DataFrame is built directly from
`historical_data` and the column is never passed through
`pd.to_datetime`, so the subtraction of two Python strings raises
`TypeError` before the risk formula on lines 213-219 is reached. -/
def calculate_entity_risk_score (entity_id : String) (hist : List HistRecord) :
    Except PyError ℚ :=
  if hist.isEmpty || entity_id = "" then
    Except.ok (0.1 : ℚ)
  else
    let entity_txns := hist.filter fun r =>
      r.source_id = entity_id || r.destination_id = entity_id
    if entity_txns.length = 0 then
      Except.ok (0.2 : ℚ)
    else
      Except.error (PyError.typeError "unsupported operand types for - between str and str")

/-- `strptime(f"{fiscal_year}-07-01", "%Y-%m-%d")` succeeds exactly when
`fiscal_year` is four decimal digits forming a year in 1..9999 (the `%Y`
pattern matches exactly four digits, and `datetime` rejects year 0). -/
def parseFiscalYear (s : String) : Option Int :=
  let cs := s.toList
  if cs.length = 4 && cs.all Char.isDigit then
    let n : ℕ := cs.foldl (fun acc c => acc * 10 + (c.toNat - 48)) 0
    if n ≥ 1 then some (n : Int) else none
  else none

/-- Fiscal-year progress (source lines 160-166).  Everything happens in
one `try`: a parse failure of `fiscal_year`, the `ValueError` from
`fiscal_start.replace(year=10000)`, and the `TypeError` from
subtracting the naive `fiscal_start` from an offset-aware transaction
time all fall into the bare `except` and yield the 0.5 default.  The
value is not clamped to [0, 1]. -/
def fiscal_progress_calc (txn_time : PyDateTime) (fiscal_year : String) : ℚ :=
  match parseFiscalYear fiscal_year with
  | none => 0.5
  | some y =>
    if y + 1 > 9999 then 0.5
    else
      let fiscal_start : PyDateTime := ⟨y, 7, 1, 0, 0, 0, none⟩
      let fiscal_end : PyDateTime := ⟨y + 1, 7, 1, 0, 0, 0, none⟩
      match dtSub txn_time fiscal_start with
      | Except.error _ => 0.5
      | Except.ok num =>
          (num : ℚ) / ((fiscal_end.epochSeconds - fiscal_start.epochSeconds : Int) : ℚ)

/-- Mean of a list of rationals (`Series.mean`); only applied to
nonempty lists in the embedded code. -/
def ratMean (l : List ℚ) : ℚ := l.sum / (l.length : ℚ)

/-- Maximum of a nonempty list of rationals (`Series.max`). -/
def ratMax : List ℚ → ℚ
  | [] => 0
  | a :: r => r.foldl max a

/-- Minimum of a nonempty list of rationals (`Series.min`). -/
def ratMin : List ℚ → ℚ
  | [] => 0
  | a :: r => r.foldl min a

/-- All history timestamps offset-aware. -/
def histAllAware (hist : List HistRecord) : Bool :=
  hist.all fun r => r.timestamp.tzOffset.isSome

/-- All history timestamps offset-naive. -/
def histAllNaive (hist : List HistRecord) : Bool :=
  hist.all fun r => r.timestamp.tzOffset.isNone

/-- `pd.to_datetime(df_hist['timestamp']).max()`: the latest historical
timestamp.  Comparing aware with naive timestamps raises `TypeError`,
as in pandas. -/
def histMaxTime (hist : List HistRecord) : Except PyError PyDateTime :=
  match hist with
  | [] => Except.error (PyError.typeError "max of empty sequence")
  | r :: rest =>
    if histAllAware (r :: rest) || histAllNaive (r :: rest) then
      Except.ok (rest.foldl
        (fun acc b => if acc.sortKey < b.timestamp.sortKey then b.timestamp else acc)
        r.timestamp)
    else
      Except.error (PyError.typeError "cannot compare offset-naive and offset-aware timestamps")

/-- `(max - min).total_seconds() / (24*3600)` over the history
timestamps (source line 129). -/
def histSpanDays (hist : List HistRecord) : Except PyError ℚ :=
  if histAllAware hist || histAllNaive hist then
    let keys := hist.map fun r => r.timestamp.sortKey
    Except.ok (((ratMax (keys.map fun k => (k : ℚ))) - (ratMin (keys.map fun k => (k : ℚ)))) / (24 * 3600))
  else
    Except.error (PyError.typeError "cannot compare offset-naive and offset-aware timestamps")

/-- The feature dictionary built by `extract_features`
(source lines 173-188).  Note: it has 14 entries — `geo_distance`
appears nowhere in it. -/
structure Features where
  amount : ℚ
  previous_transaction_count : ℕ
  average_amount : ℚ
  frequency : ℚ
  time_since_last : ℚ
  transaction_hour : ℚ
  weekend : ℚ
  source_risk_score : ℚ
  destination_risk_score : ℚ
  category_avg_amount : ℚ
  category_max_amount : ℚ
  category_frequency : ℚ
  utilization_rate : ℚ
  fiscal_progress : ℚ
deriving DecidableEq, Repr

/-- The keys of the dictionary returned by `extract_features`, in the
order of the dict literal (source lines 173-188). -/
def featureKeys : List String :=
  ["amount", "previous_transaction_count", "average_amount", "frequency",
   "time_since_last", "transaction_hour", "weekend", "source_risk_score",
   "destination_risk_score", "category_avg_amount", "category_max_amount",
   "category_frequency", "utilization_rate", "fiscal_progress"]

/-- The module-level `FEATURES` list (source lines 23-39): 15 names,
including `geo_distance`, against which the scaler and the model are
trained and queried. -/
def FEATURES : List String :=
  ["amount", "previous_transaction_count", "average_amount", "frequency",
   "time_since_last", "transaction_hour", "weekend", "source_risk_score",
   "destination_risk_score", "geo_distance", "category_avg_amount",
   "category_max_amount", "category_frequency", "utilization_rate",
   "fiscal_progress"]

/-- Dictionary lookup on the feature dict produced by
`extract_features`. -/
def Features.lookup (f : Features) (k : String) : Option ℚ :=
  if k = "amount" then some f.amount
  else if k = "previous_transaction_count" then some (f.previous_transaction_count : ℚ)
  else if k = "average_amount" then some f.average_amount
  else if k = "frequency" then some f.frequency
  else if k = "time_since_last" then some f.time_since_last
  else if k = "transaction_hour" then some f.transaction_hour
  else if k = "weekend" then some f.weekend
  else if k = "source_risk_score" then some f.source_risk_score
  else if k = "destination_risk_score" then some f.destination_risk_score
  else if k = "category_avg_amount" then some f.category_avg_amount
  else if k = "category_max_amount" then some f.category_max_amount
  else if k = "category_frequency" then some f.category_frequency
  else if k = "utilization_rate" then some f.utilization_rate
  else if k = "fiscal_progress" then some f.fiscal_progress
  else none

/-- `extract_features` (source lines 99-190).  The history-dependent
block mirrors lines 121-158; with exactly one historical record the
variable `time_range_days` is referenced on line 146 without ever being
assigned (the assignment on line 129 is guarded by `len(df_hist) > 1`),
which raises `UnboundLocalError` — modelled as `nameError`. -/
def extract_features (t : Transaction) (hist : List HistRecord) :
    Except PyError Features := do
  let txn_time ←
    match t.timestamp with
    | some d => Except.ok d
    | none => Except.error (PyError.keyError "timestamp")
  let amount ←
    match t.amount with
    | some a => Except.ok a
    | none => Except.error (PyError.keyError "amount")
  let transaction_hour : ℚ := (txn_time.hour : ℚ)
  let weekend : ℚ := if txn_time.pyWeekday ≥ 5 then 1 else 0
  let fund_category := t.fund_category.getD "UNKNOWN"
  let fiscal_year := t.fiscal_year.getD ""
  let budget_allocated := t.budget_allocated.getD 0
  let budget_utilized := t.budget_utilized.getD 0
  let utilization_rate : ℚ :=
    if budget_allocated > 0 then budget_utilized / budget_allocated else 0
  let hd ←
    if hist.isEmpty then
      Except.ok ((0 : ℕ), amount, (0 : ℚ), (0 : ℚ), amount, amount, (0 : ℚ))
    else do
      let previous_transaction_count := hist.length
      let average_amount := ratMean (hist.map HistRecord.amount)
      let spanOpt ←
        if hist.length > 1 then do
          let span ← histSpanDays hist
          Except.ok (some span)
        else Except.ok (none : Option ℚ)
      let frequency : ℚ :=
        match spanOpt with
        | some span => if span > 0 then (hist.length : ℚ) / (span / 7) else 0
        | none => 0
      let lastT ← histMaxTime hist
      let delta ← dtSub txn_time lastT
      let time_since_last : ℚ := (delta : ℚ) / 3600
      let category_txns := hist.filter fun r => r.fund_category = fund_category
      let category_avg :=
        if category_txns.length > 0 then ratMean (category_txns.map HistRecord.amount)
        else amount
      let category_max :=
        if category_txns.length > 0 then ratMax (category_txns.map HistRecord.amount)
        else amount
      let category_frequency ←
        match spanOpt with
        | some span =>
            Except.ok (if span > 0 then (category_txns.length : ℚ) / (span / 7) else 0)
        | none => Except.error (PyError.nameError "time_range_days")
      Except.ok (previous_transaction_count, average_amount, frequency,
                 time_since_last, category_avg, category_max, category_frequency)
  let (previous_transaction_count, average_amount, frequency, time_since_last,
       category_avg, category_max, category_frequency) := hd
  let fiscal_progress := fiscal_progress_calc txn_time fiscal_year
  let source_risk_score ← calculate_entity_risk_score (t.source_id.getD "") hist
  let destination_risk_score ← calculate_entity_risk_score (t.destination_id.getD "") hist
  Except.ok
    { amount := amount
      previous_transaction_count := previous_transaction_count
      average_amount := average_amount
      frequency := frequency
      time_since_last := time_since_last
      transaction_hour := transaction_hour
      weekend := weekend
      source_risk_score := source_risk_score
      destination_risk_score := destination_risk_score
      category_avg_amount := category_avg
      category_max_amount := category_max
      category_frequency := category_frequency
      utilization_rate := utilization_rate
      fiscal_progress := fiscal_progress }

/-- `pd.DataFrame([features])[FEATURES]` for the single scoring row
(source lines 227-228): selecting a column that is absent from the
frame raises `KeyError`. -/
def selectColumns (f : Features) : Except PyError (List ℚ) :=
  match FEATURES.find? fun k => (Features.lookup f k).isNone with
  | some k => Except.error (PyError.keyError k)
  | none => Except.ok (FEATURES.filterMap (Features.lookup f))

/-- The raw feature row the scoring path tries to build:
`extract_features` followed by the `df[FEATURES]` selection
(source lines 224-228). -/
def score_features (t : Transaction) (hist : List HistRecord) :
    Except PyError (List ℚ) := do
  let f ← extract_features t hist
  selectColumns f

/-- The sequential reason accumulation of `generate_anomaly_reason`
(source lines 254-286): each rule is an independent `if` appending its
message — no rule short-circuits any other.  All comparisons read the
raw (pre-normalization) feature values. -/
def anomaly_reason_list (f : Features) : List String :=
  let reasons : List String := []
  let reasons := if f.amount > f.category_max_amount * 1.5 then
    reasons ++ ["Transaction amount significantly higher than category maximum"] else reasons
  let reasons := if f.amount > f.average_amount * 3 then
    reasons ++ ["Transaction amount unusually high compared to historical average"] else reasons
  let reasons := if f.transaction_hour ≥ 22 ∨ f.transaction_hour ≤ 5 then
    reasons ++ ["Unusual transaction time (overnight hours)"] else reasons
  let reasons := if f.weekend = 1 then
    reasons ++ ["Weekend transaction unusual for government funds"] else reasons
  let reasons := if f.utilization_rate > 0.9 ∧ f.fiscal_progress < 0.5 then
    reasons ++ ["High budget utilization rate early in fiscal year"] else reasons
  let reasons := if f.utilization_rate > 1 then
    reasons ++ ["Transaction would exceed allocated budget"] else reasons
  let reasons := if f.time_since_last < 24 ∧ f.previous_transaction_count > 0 then
    reasons ++ ["Unusually frequent transactions"] else reasons
  let reasons := if f.source_risk_score > 0.7 then
    reasons ++ ["Source entity has high risk score"] else reasons
  let reasons := if f.destination_risk_score > 0.7 then
    reasons ++ ["Destination entity has high risk score"] else reasons
  reasons

/-- `generate_anomaly_reason` (source lines 252-291): build the list of
matching rule messages, fall back to the generic message when none
matched, and join with the fixed separator. -/
def generate_anomaly_reason (f : Features) : String :=
  let reasons := anomaly_reason_list f
  let reasons := if reasons.isEmpty then ["General anomalous pattern detected"] else reasons
  String.intercalate " | " reasons

/-- The rule table of `generate_anomaly_reason` as a declarative list of
(predicate, message) pairs, in source order. -/
def ruleTable : List ((Features → Bool) × String) :=
  [(fun f => decide (f.amount > f.category_max_amount * 1.5),
    "Transaction amount significantly higher than category maximum"),
   (fun f => decide (f.amount > f.average_amount * 3),
    "Transaction amount unusually high compared to historical average"),
   (fun f => decide (f.transaction_hour ≥ 22 ∨ f.transaction_hour ≤ 5),
    "Unusual transaction time (overnight hours)"),
   (fun f => decide (f.weekend = 1),
    "Weekend transaction unusual for government funds"),
   (fun f => decide (f.utilization_rate > 0.9 ∧ f.fiscal_progress < 0.5),
    "High budget utilization rate early in fiscal year"),
   (fun f => decide (f.utilization_rate > 1),
    "Transaction would exceed allocated budget"),
   (fun f => decide (f.time_since_last < 24 ∧ f.previous_transaction_count > 0),
    "Unusually frequent transactions"),
   (fun f => decide (f.source_risk_score > 0.7),
    "Source entity has high risk score"),
   (fun f => decide (f.destination_risk_score > 0.7),
    "Destination entity has high risk score")]

/-- Messages of all rules whose predicate holds, in table order. -/
def matchedMessages (f : Features) : List String :=
  (ruleTable.filter fun r => r.1 f).map Prod.snd

/-- Projection of the `category_max_amount` feature out of an
extraction result. -/
def catMaxOf (r : Except PyError Features) : Option ℚ :=
  r.toOption.map Features.category_max_amount

/-- Whether the "exceeds category maximum" rule message fires on an
extraction result (membership in the reason list the source builds). -/
def rule1Hit (r : Except PyError Features) : Option Bool :=
  r.toOption.map fun f =>
    decide ("Transaction amount significantly higher than category maximum" ∈
      anomaly_reason_list f)

/-- Epoch seconds of July 1 of a year — the fiscal-year start used by
`extract_features`. -/
def julyFirstSecs (y : Int) : Int := daysFromCivil y 7 1 * 86400

open scoped Classical

/-- An isolation tree: internal nodes hold a feature index and split
threshold; leaves hold the residual subsample size used for the
path-length correction. -/
inductive ITree where
  | leaf (size : ℕ)
  | node (feat : ℕ) (split : ℝ) (l : ITree) (r : ITree)

/-- The seeded pseudo-random generator: every random choice of the
forest build (subsample, feature index, split value) draws from this
single deterministic stream, modelling the `random_state`-seeded
generator that `IsolationForest(random_state=42)` uses. -/
structure Rng where
  state : ℕ
deriving DecidableEq, Repr

/-- One draw of the generator. -/
def Rng.next (g : Rng) : ℕ × Rng :=
  let s := (g.state * 1103515245 + 12345) % 2147483648
  (s, ⟨s⟩)

/-- A draw reduced below `n`. -/
def Rng.below (g : Rng) (n : ℕ) : ℕ × Rng :=
  let p := g.next
  (p.1 % n, p.2)

/-- A draw as a rational in [0, 1). -/
def Rng.unit (g : Rng) : ℚ × Rng :=
  let p := g.next
  ((p.1 : ℚ) / 2147483648, p.2)

/-- Subsampling without replacement: `k` rows drawn from `xs`, each
removed once chosen. -/
def sampleWR : Rng → List (List ℝ) → ℕ → List (List ℝ) × Rng
  | g, _, 0 => ([], g)
  | g, xs, k + 1 =>
    if xs.isEmpty then ([], g)
    else
      let p := g.below xs.length
      let x := xs.getD p.1 []
      let rest := sampleWR p.2 (xs.eraseIdx p.1) k
      (x :: rest.1, rest.2)

/-- Column `i` of the data matrix. -/
def colVals (X : List (List ℝ)) (i : ℕ) : List ℝ := X.map fun r => r.getD i 0

/-- Maximum of a nonempty list of reals. -/
noncomputable def realMax : List ℝ → ℝ
  | [] => 0
  | a :: r => r.foldl max a

/-- Minimum of a nonempty list of reals. -/
noncomputable def realMin : List ℝ → ℝ
  | [] => 0
  | a :: r => r.foldl min a

/-- Recursive isolation-tree construction: pick a uniformly random
feature and a uniformly random split within that feature's observed
[min, max]; stop a branch at subsample size ≤ 1 or when the depth
budget (ceil(log2 of the initial subsample size)) is exhausted. -/
noncomputable def buildTree : Rng → List (List ℝ) → ℕ → ITree × Rng
  | g, x, 0 => (ITree.leaf x.length, g)
  | g, x, fuel + 1 =>
    if x.length ≤ 1 then (ITree.leaf x.length, g)
    else
      let nf := (x.headD []).length
      if nf = 0 then (ITree.leaf x.length, g)
      else
        let pf := g.below nf
        let fi := pf.1
        let cv := colVals x fi
        let lo := realMin cv
        let hi := realMax cv
        let pu := pf.2.unit
        let split := lo + (pu.1 : ℝ) * (hi - lo)
        let xl := x.filter fun r => r.getD fi 0 ≤ split
        let xr := x.filter fun r => split < r.getD fi 0
        let bl := buildTree pu.2 xl fuel
        let br := buildTree bl.2 xr fuel
        (ITree.node fi split bl.1 br.1, br.2)

/-- Forest construction with `n_estimators=100` and subsample size
`min(256, n)` (`max_samples='auto'`), all randomness threaded through
the single generator seeded with `seed`. -/
noncomputable def build_forest (seed : ℕ) (X : List (List ℝ)) : List ITree :=
  let ssize := min 256 X.length
  let limit := Nat.clog 2 ssize
  let step := fun (acc : List ITree × Rng) (_ : ℕ) =>
    let s := sampleWR acc.2 X ssize
    let t := buildTree s.2 s.1 limit
    (acc.1 ++ [t.1], t.2)
  ((List.range 100).foldl step ([], ⟨seed⟩)).1

/-- `np.euler_gamma`, the double-precision literal the library uses in
the path-length correction. -/
def eulerGammaLit : ℚ := 0.5772156649015329

/-- sklearn's `_average_path_length`: the expected isolation-path
length `c(m)` of an unexplored subtree over `m` points, with the
special cases `c(m ≤ 1) = 0` and `c(2) = 1`. -/
noncomputable def average_path_length (m : ℕ) : ℝ :=
  if m ≤ 1 then 0
  else if m = 2 then 1
  else 2 * (Real.log ((m : ℝ) - 1) + (eulerGammaLit : ℝ)) - 2 * ((m : ℝ) - 1) / (m : ℝ)

/-- Walk a query vector down a tree: edge count and terminal leaf
size.  Goes left on `x[feat] ≤ split`. -/
noncomputable def ITree.pathInfo (x : List ℝ) : ITree → ℕ × ℕ
  | ITree.leaf n => (0, n)
  | ITree.node fi split l r =>
    let sub := if x.getD fi 0 ≤ (split : ℝ) then ITree.pathInfo x l else ITree.pathInfo x r
    (sub.1 + 1, sub.2)

/-- The fitted forest: trees, build-time subsample size, and the
decision offset `offset_` set at fit time. -/
structure ForestModel where
  trees : List ITree
  subsampleSize : ℕ
  offset : ℝ

/-- Corrected path length of one tree on a query vector: edge count
plus `c(residual leaf size)`. -/
noncomputable def treePathLength (x : List ℝ) (t : ITree) : ℝ :=
  ((ITree.pathInfo x t).1 : ℝ) + average_path_length (ITree.pathInfo x t).2

/-- `IsolationForest.score_samples`: the NEGATED anomaly score of the
original isolation-forest paper, `-2 ^ (-E[h(x)] / c(n))` — sklearn's
documented convention, in which LOWER values are MORE abnormal. -/
noncomputable def score_samples (fm : ForestModel) (x : List ℝ) : ℝ :=
  let hs := fm.trees.map (treePathLength x)
  let eh := hs.sum / (hs.length : ℝ)
  let expo := -(eh / average_path_length fm.subsampleSize)
  Neg.neg ((2 : ℝ) ^ expo)

/-- Insertion into a sorted list (ascending). -/
noncomputable def insertSorted (a : ℝ) : List ℝ → List ℝ
  | [] => [a]
  | b :: r => if a ≤ b then a :: b :: r else b :: insertSorted a r

/-- Ascending sort, as `np.percentile` performs internally. -/
noncomputable def sortScores : List ℝ → List ℝ
  | [] => []
  | a :: r => insertSorted a (sortScores r)

/-- `np.percentile(xs, q)` with linear interpolation. -/
noncomputable def np_percentile (q : ℚ) (xs : List ℝ) : ℝ :=
  let s := sortScores xs
  match s with
  | [] => 0
  | _ :: _ =>
    let n := s.length
    let pos : ℚ := q / 100 * ((n : ℚ) - 1)
    let i : ℕ := pos.floor.toNat
    let frac : ℚ := pos - (pos.floor : ℚ)
    let lo := s.getD i 0
    let hi := s.getD (min (i + 1) (n - 1)) 0
    lo + (frac : ℝ) * (hi - lo)

/-- The `score_samples` values of the training matrix under the
freshly built forest (offset not yet set — it does not influence
scores). -/
noncomputable def training_scores (seed : ℕ) (X : List (List ℝ)) : List ℝ :=
  X.map fun v => score_samples ⟨build_forest seed X, min 256 X.length, 0⟩ v

/-- `IsolationForest.fit` with `contamination=0.05`: build the trees,
then set `offset_ = np.percentile(score_samples(X), 100 * 0.05)` — the
0.05 quantile of the training scores. -/
noncomputable def fit_isolation_forest (seed : ℕ) (X : List (List ℝ)) : ForestModel :=
  ⟨build_forest seed X, min 256 X.length, np_percentile 5 (training_scores seed X)⟩

/-- `StandardScaler` state: per-feature mean and scale. -/
structure ScalerState where
  mean : List ℚ
  scale : List ℝ

/-- `StandardScaler.transform`: `(x - mean) / scale` per feature. -/
noncomputable def ScalerState.transform (sc : ScalerState) (row : List ℚ) : List ℝ :=
  (row.zip (sc.mean.zip sc.scale)).map fun p => ((p.1 - p.2.1 : ℚ) : ℝ) / p.2.2

/-- `StandardScaler.fit`: per-column mean and standard deviation, a
zero deviation being replaced by 1. -/
noncomputable def fit_scaler (matrix : List (List ℚ)) : ScalerState :=
  let ncols := (matrix.headD []).length
  let cols := (List.range ncols).map fun i => matrix.map fun r => r.getD i 0
  let means := cols.map ratMean
  let vars := cols.map fun c => ratMean (c.map fun v => (v - ratMean c) ^ 2)
  { mean := means
    scale := vars.map fun v => if v = 0 then 1 else Real.sqrt ((v : ℚ) : ℝ) }

/-- The result dictionary of `detect_anomaly` (source lines 246-250). -/
structure AnomalyResult where
  is_anomaly : Bool
  anomaly_score : ℝ
  reason : Option String

/-- The scoring segment of `detect_anomaly` downstream of the
`df[FEATURES]` selection (source lines 230-250): scale the raw row,
score it, decide `model.predict == -1` — which sklearn defines as
`score_samples(x) - offset_ < 0` — and attach a reason exactly when the
prediction is anomalous, computed from the RAW feature values. -/
noncomputable def detect_core (fm : ForestModel) (sc : ScalerState) (f : Features)
    (row : List ℚ) : AnomalyResult :=
  let scaled := sc.transform row
  let score := score_samples fm scaled
  let isA : Bool := decide (score - fm.offset < 0)
  { is_anomaly := isA
    anomaly_score := score
    reason := if isA then some (generate_anomaly_reason f) else none }

/-- The serving state: the module-level `(model, scaler)` pair. -/
structure ServingState where
  model : ForestModel
  scaler : ScalerState

/-- Responses of the `/retrain` endpoint. -/
inductive RetrainResponse where
  | badRequest (msg : String)
  | serverError (msg : String)
  | success
deriving DecidableEq, Repr

/-- The 400 message of the undersized-batch rejection
(source line 328). -/
def insufficientMsg : String := "Need at least 100 transactions for retraining"

/-- The `extract_features(txn)` loop of the retrain handler
(source lines 332-336): each valid transaction is extracted with no
historical data; an exception propagates to the `except` clause. -/
def extractAll : List Transaction → Except PyError (List Features)
  | [] => Except.ok []
  | t :: r => do
    let f ← extract_features t []
    let fs ← extractAll r
    Except.ok (f :: fs)

/-- Columns of `pd.DataFrame(features_list)`: the union of the row
dicts' keys — `featureKeys` when any row exists, nothing otherwise. -/
def batchColumns (fs : List Features) : List String :=
  if fs.isEmpty then [] else featureKeys

/-- `pd.DataFrame(features_list)[FEATURES]` (source lines 339-342):
`KeyError` on the first requested column missing from the frame. -/
def selectColumnsBatch (fs : List Features) : Except PyError (List (List ℚ)) :=
  match FEATURES.find? fun k => !(batchColumns fs).contains k with
  | some k => Except.error (PyError.keyError k)
  | none => Except.ok (fs.map fun f => FEATURES.filterMap (Features.lookup f))

/-- The `/retrain` endpoint (source lines 319-368).  The batch-size
check `len(transactions) < 100` runs on the RAW request list, before
any filtering for required fields.  Everything after it sits in one
`try/except`: on any exception the handler returns a 500 response and
the module-level `(model, scaler)` pair is left untouched; only the
fully successful path reassigns the globals. -/
noncomputable def api_retrain_model (st : ServingState) (txns : List Transaction) :
    RetrainResponse × ServingState :=
  if txns.isEmpty || txns.length < 100 then
    (RetrainResponse.badRequest insufficientMsg, st)
  else
    let valid := txns.filter hasRequiredFields
    match extractAll valid with
    | Except.error e => (RetrainResponse.serverError (pyErrMsg e), st)
    | Except.ok fs =>
      match selectColumnsBatch fs with
      | Except.error e => (RetrainResponse.serverError (pyErrMsg e), st)
      | Except.ok matrix =>
        let sc := fit_scaler matrix
        let scaled := matrix.map (ScalerState.transform sc)
        let fm := fit_isolation_forest 42 scaled
        (RetrainResponse.success, ⟨fm, sc⟩)

/-! ### Concrete fixtures used by the witnesses and counterexamples -/

/-- 2024-01-01T12:00:00Z — an offset-aware timestamp (`Z` suffix). -/
def dtNoonZ : PyDateTime := ⟨2024, 1, 1, 12, 0, 0, some 0⟩

/-- 2024-01-01T12:00:00 — the same wall-clock time, offset-naive. -/
def dtNoonNaive : PyDateTime := ⟨2024, 1, 1, 12, 0, 0, none⟩

def dtJan1 : PyDateTime := ⟨2024, 1, 1, 0, 0, 0, none⟩
def dtJan8 : PyDateTime := ⟨2024, 1, 8, 0, 0, 0, none⟩
def dtFeb1 : PyDateTime := ⟨2024, 2, 1, 0, 0, 0, none⟩

/-- A minimal valid transaction (id, amount, parseable timestamp). -/
def txn1 : Transaction :=
  { id := some "t1", amount := some 100, timestamp := some dtNoonZ,
    source_id := none, destination_id := none, fund_category := none,
    fiscal_year := none, budget_allocated := none, budget_utilized := none }

/-- The transaction of the category-maximum scenario: amount 50000. -/
def txn7 : Transaction :=
  { id := some "t7", amount := some 50000, timestamp := some dtFeb1,
    source_id := none, destination_id := none, fund_category := some "EDUCATION",
    fiscal_year := none, budget_allocated := none, budget_utilized := none }

/-- Historical data whose matching-category maximum amount is 10000. -/
def hist7 : List HistRecord :=
  [⟨10000, dtJan1, "EDUCATION", "E1", "E2"⟩, ⟨5000, dtJan8, "EDUCATION", "E3", "E4"⟩]

/-- One historical record referencing entity `E1` as source. -/
def histE : List HistRecord := [⟨100, dtJan1, "EDUCATION", "E1", "E9"⟩]

/-- A transaction missing the required `id` field. -/
def txnNoId : Transaction :=
  { id := none, amount := some 1, timestamp := some dtNoonZ,
    source_id := none, destination_id := none, fund_category := none,
    fiscal_year := none, budget_allocated := none, budget_utilized := none }

/-- A feature row matching no reason rule. -/
def f0 : Features :=
  { amount := 0, previous_transaction_count := 0, average_amount := 0,
    frequency := 0, time_since_last := 0, transaction_hour := 12, weekend := 0,
    source_risk_score := 0, destination_risk_score := 0, category_avg_amount := 0,
    category_max_amount := 0, category_frequency := 0, utilization_rate := 0,
    fiscal_progress := 0 }

/-- A trivial fitted model (no trees, subsample 2, offset 0). -/
noncomputable def fm0 : ForestModel := ⟨[], 2, 0⟩

/-- An identity scaler over one column. -/
noncomputable def idScaler : ScalerState := ⟨[0], [1]⟩

/-- An arbitrary concrete serving state. -/
noncomputable def st0 : ServingState := ⟨fm0, idScaler⟩

/-! ### Helper lemmas -/

theorem average_path_length_nonneg (m : ℕ) : 0 ≤ average_path_length m := by
  unfold average_path_length
  split_ifs with h1 h2
  · exact le_refl 0
  · norm_num
  · have hm : 3 ≤ m := by omega
    have hm3 : (3 : ℝ) ≤ (m : ℝ) := by exact_mod_cast hm
    have hmpos : (0 : ℝ) < (m : ℝ) := by linarith
    have hlog : Real.log 2 ≤ Real.log ((m : ℝ) - 1) := by
      apply Real.log_le_log (by norm_num)
      linarith
    have hlog2 : (0.6931471803 : ℝ) < Real.log 2 := Real.log_two_gt_d9
    have hg : (0.577 : ℝ) ≤ ((eulerGammaLit : ℚ) : ℝ) := by
      rw [eulerGammaLit]
      norm_num
    have hfrac : 2 * ((m : ℝ) - 1) / (m : ℝ) ≤ 2 := by
      rw [div_le_iff₀ hmpos]
      linarith
    linarith

theorem treePathLength_nonneg (x : List ℝ) (t : ITree) : 0 ≤ treePathLength x t := by
  unfold treePathLength
  exact add_nonneg (Nat.cast_nonneg _) (average_path_length_nonneg _)

theorem score_samples_lt_zero (fm : ForestModel) (x : List ℝ) :
    score_samples fm x < 0 := by
  simp only [score_samples]
  have h := Real.rpow_pos_of_pos (show (0 : ℝ) < 2 by norm_num)
    (-((fm.trees.map (treePathLength x)).sum / ((fm.trees.map (treePathLength x)).length : ℝ) /
       average_path_length fm.subsampleSize))
  linarith

theorem score_samples_ge_neg_one (fm : ForestModel) (x : List ℝ) :
    -1 ≤ score_samples fm x := by
  simp only [score_samples]
  have hsum : 0 ≤ (fm.trees.map (treePathLength x)).sum := by
    apply List.sum_nonneg
    intro a ha
    obtain ⟨t, _, rfl⟩ := List.mem_map.mp ha
    exact treePathLength_nonneg x t
  have heh : 0 ≤ (fm.trees.map (treePathLength x)).sum /
      ((fm.trees.map (treePathLength x)).length : ℝ) :=
    div_nonneg hsum (Nat.cast_nonneg _)
  have he : -((fm.trees.map (treePathLength x)).sum /
      ((fm.trees.map (treePathLength x)).length : ℝ) /
      average_path_length fm.subsampleSize) ≤ 0 := by
    apply neg_nonpos_of_nonneg
    exact div_nonneg heh (average_path_length_nonneg _)
  have h1 : (2 : ℝ) ^ (-((fm.trees.map (treePathLength x)).sum /
      ((fm.trees.map (treePathLength x)).length : ℝ) /
      average_path_length fm.subsampleSize)) ≤ 1 :=
    Real.rpow_le_one_of_one_le_of_nonpos (by norm_num) he
  linarith

theorem score_samples_offset_independent (tr : List ITree) (n : ℕ) (o : ℝ) (x : List ℝ) :
    score_samples ⟨tr, n, o⟩ x = score_samples ⟨tr, n, 0⟩ x := rfl

theorem score_samples_no_trees (n : ℕ) (o : ℝ) (x : List ℝ) :
    score_samples ⟨[], n, o⟩ x = -1 := by
  simp [score_samples]

theorem np_percentile_singleton (s : ℝ) : np_percentile 5 [s] = s := by
  have h0 : Rat.floor 0 = 0 := by decide
  simp [np_percentile, sortScores, insertSorted, h0]

theorem selectColumnsBatch_always_fails (fs : List Features) :
    ∃ k, selectColumnsBatch fs = Except.error (PyError.keyError k) := by
  cases fs with
  | nil => exact ⟨"amount", rfl⟩
  | cons a l => exact ⟨"geo_distance", rfl⟩

theorem julyFirst_epoch (y : Int) :
    (⟨y, 7, 1, 0, 0, 0, none⟩ : PyDateTime).epochSeconds = julyFirstSecs y := by
  simp [PyDateTime.epochSeconds, julyFirstSecs]

theorem julyFirst_span_pos (y : Int) : 0 < julyFirstSecs (y + 1) - julyFirstSecs y := by
  unfold julyFirstSecs daysFromCivil
  rw [if_neg (by norm_num : ¬(7 : Int) ≤ 2), if_neg (by norm_num : ¬(7 : Int) ≤ 2)]
  norm_num
  omega

/-! ### Claim theorems -/

/-- C1: the claim says the feature vector produced by the extractor
contains exactly the features, in the exact order, that the scaler and
model are queried against, so scoring never fails on a schema mismatch.
The code violates this: `FEATURES` contains `geo_distance` but the
dictionary built by `extract_features` does not, so the `df[FEATURES]`
selection raises `KeyError` on every scoring call — here evaluated at
the concrete valid transaction `txn1`. -/
theorem C1_feature_schema_mismatch :
    "geo_distance" ∈ FEATURES ∧
    featureKeys ≠ FEATURES ∧
    (∀ f : Features, Features.lookup f "geo_distance" = none) ∧
    score_features txn1 [] = Except.error (PyError.keyError "geo_distance") :=
  ⟨by decide, by decide, fun _ => rfl, by decide⟩

/-- C5: the entity risk scorer returns 0.1 for an empty id or empty
history and 0.2 for a non-empty history with no matching record, as
claimed; but in the remaining branch, instead of returning the clamped
risk formula, it raises `TypeError` (it subtracts the raw string
timestamps of the matching records), evaluated here at entity `E1`
with one matching record. -/
theorem C5_entity_risk_score :
    calculate_entity_risk_score "" histE = Except.ok (0.1 : ℚ) ∧
    calculate_entity_risk_score "E1" [] = Except.ok (0.1 : ℚ) ∧
    calculate_entity_risk_score "ZZ" histE = Except.ok (0.2 : ℚ) ∧
    calculate_entity_risk_score "E1" histE =
      Except.error (PyError.typeError "unsupported operand types for - between str and str") :=
  ⟨rfl, rfl, rfl, rfl⟩

/-- C7: for a transaction with amount 50000 and no historical data,
`category_max_amount` defaults to the transaction's own amount 50000
and the "exceeds category maximum" rule does not fire; with historical
data whose matching-category maximum is 10000, the rule fires. -/
theorem C7_category_max_rule :
    catMaxOf (extract_features txn7 []) = some 50000 ∧
    rule1Hit (extract_features txn7 []) = some false ∧
    catMaxOf (extract_features txn7 hist7) = some 10000 ∧
    rule1Hit (extract_features txn7 hist7) = some true :=
  ⟨by decide, by decide, by decide, by decide⟩

/-- C2 counterexample: a batch of 100 raw transactions, each missing
`id`, leaves 0 valid transactions after filtering — fewer than 100 —
yet the endpoint does not reject it with the insufficient-data error
(the `len(transactions) < 100` check runs before filtering; the batch
proceeds into the `try` block and fails with a generic 500 instead). -/
theorem C2_counterexample :
    ((List.replicate 100 txnNoId).filter hasRequiredFields).length = 0 ∧
    (api_retrain_model st0 (List.replicate 100 txnNoId)).1 ≠
      RetrainResponse.badRequest insufficientMsg :=
  ⟨by decide, by decide⟩

/-- C2 (amended): the retrain endpoint rejects with the
insufficient-data error exactly when the RAW batch (before any
filtering for required fields) has fewer than 100 transactions, and in
that case the serving pair is unchanged; a batch of 100 or more raw
transactions is never rejected with that error, no matter how few
survive the filter. -/
theorem C2_raw_count_check (st : ServingState) (txns : List Transaction) :
    (((api_retrain_model st txns).1 = RetrainResponse.badRequest insufficientMsg) ↔
      txns.length < 100) ∧
    (txns.length < 100 →
      api_retrain_model st txns = (RetrainResponse.badRequest insufficientMsg, st)) := by
  by_cases h : txns.length < 100
  · have hc : (txns.isEmpty || decide (txns.length < 100)) = true := by
      simp [h]
    constructor
    · constructor
      · intro _; exact h
      · intro _; simp [api_retrain_model, hc]
    · intro _; simp [api_retrain_model, hc]
  · have hne : txns.isEmpty = false := by
      cases txns with
      | nil => simp at h
      | cons a l => rfl
    have hc : (txns.isEmpty || decide (txns.length < 100)) = false := by
      simp [hne, h]
    constructor
    · constructor
      · intro hres
        rw [api_retrain_model, if_neg (by simp [hc])] at hres
        rcases hE : extractAll (txns.filter hasRequiredFields) with e | fs
        · simp [hE] at hres
        · obtain ⟨k, hk⟩ := selectColumnsBatch_always_fails fs
          simp [hE, hk] at hres
      · intro hlt; exact absurd hlt h
    · intro hlt; exact absurd hlt h

/-- C2 witness: the empty batch (0 < 100 raw transactions) is rejected
with the insufficient-data error and the serving pair is untouched. -/
theorem C2_witness :
    api_retrain_model st0 [] = (RetrainResponse.badRequest insufficientMsg, st0) :=
  (C2_raw_count_check st0 []).2 (by decide)

/-- C6: whenever retraining does not complete successfully — whatever
the batch and whatever exception interrupted the `try` block — the
serving `(model, scaler)` pair after the call is exactly the pair from
before the call; only the fully successful path reassigns it. -/
theorem C6_retrain_nondestructive (st : ServingState) (txns : List Transaction)
    (_h : (api_retrain_model st txns).1 ≠ RetrainResponse.success) :
    (api_retrain_model st txns).2 = st := by
  by_cases hc : (txns.isEmpty || decide (txns.length < 100)) = true
  · simp [api_retrain_model, hc]
  · rw [api_retrain_model, if_neg hc]
    rcases hE : extractAll (txns.filter hasRequiredFields) with e | fs
    · simp [hE]
    · obtain ⟨k, hk⟩ := selectColumnsBatch_always_fails fs
      simp [hE, hk]

/-- C6 witness: a 100-transaction batch that fails inside the `try`
block (with a generic 500, not the insufficient-data 400) leaves the
serving pair unchanged. -/
theorem C6_witness :
    (api_retrain_model st0 (List.replicate 100 txnNoId)).2 = st0 :=
  C6_retrain_nondestructive st0 (List.replicate 100 txnNoId) (by decide)

/-- C9: the forest build is a deterministic function of the seed and
the training data — all random choices (subsampling, feature choice,
split value) draw from the single generator initialised from the seed —
so two builds from the same seed and same data produce identical trees,
and scoring any query vector against the two resulting models produces
identical scores. -/
theorem C9_seed_determinism (s1 s2 : ℕ) (X1 X2 : List (List ℝ)) (x : List ℝ)
    (hs : s1 = s2) (hX : X1 = X2) :
    build_forest s1 X1 = build_forest s2 X2 ∧
    score_samples (fit_isolation_forest s1 X1) x =
      score_samples (fit_isolation_forest s2 X2) x := by
  subst hs
  subst hX
  exact ⟨rfl, rfl⟩

/-- C9 witness: instantiated at seed 42 and a one-row training set. -/
theorem C9_witness :
    build_forest 42 [[0]] = build_forest 42 [[0]] ∧
    score_samples (fit_isolation_forest 42 [[0]]) [0] =
      score_samples (fit_isolation_forest 42 [[0]]) [0] :=
  C9_seed_determinism 42 42 [[0]] [[0]] [0] rfl rfl

/-- C10 (amended): for an OFFSET-NAIVE transaction timestamp and a
fiscal year that parses to `y` with `y + 1 ≤ 9999`, `fiscal_progress`
equals the unclamped signed ratio
`(timestamp − July 1 of y) / (July 1 of y+1 − July 1 of y)`: it is
negative when the timestamp precedes July 1 of `y` and exceeds 1 when
the timestamp is more than one year later; a fiscal-year parse failure
yields the 0.5 default.  (For an offset-aware timestamp the aware-minus-
naive subtraction raises inside the `try` and 0.5 is returned even when
the fiscal year parses — see the counterexample.) -/
theorem C10_fiscal_progress_unclamped (tt : PyDateTime) (fy : String) (y : Int)
    (hp : parseFiscalYear fy = some y) (hy : y + 1 ≤ 9999) (ht : tt.tzOffset = none) :
    (fiscal_progress_calc tt fy =
      ((tt.epochSeconds - julyFirstSecs y : Int) : ℚ) /
        ((julyFirstSecs (y + 1) - julyFirstSecs y : Int) : ℚ)) ∧
    (tt.epochSeconds < julyFirstSecs y → fiscal_progress_calc tt fy < 0) ∧
    (julyFirstSecs (y + 1) < tt.epochSeconds → 1 < fiscal_progress_calc tt fy) ∧
    (∀ s : String, parseFiscalYear s = none → fiscal_progress_calc tt s = 0.5) := by
  have hsub : dtSub tt ⟨y, 7, 1, 0, 0, 0, none⟩ =
      Except.ok (tt.epochSeconds - (⟨y, 7, 1, 0, 0, 0, none⟩ : PyDateTime).epochSeconds) := by
    unfold dtSub
    rw [ht]
  have heq : fiscal_progress_calc tt fy =
      ((tt.epochSeconds - julyFirstSecs y : Int) : ℚ) /
        ((julyFirstSecs (y + 1) - julyFirstSecs y : Int) : ℚ) := by
    unfold fiscal_progress_calc
    simp only [hp]
    rw [if_neg (by omega : ¬y + 1 > 9999)]
    simp only [hsub, julyFirst_epoch]
  have hpos : (0 : ℚ) < ((julyFirstSecs (y + 1) - julyFirstSecs y : Int) : ℚ) := by
    exact_mod_cast julyFirst_span_pos y
  refine ⟨heq, ?_, ?_, ?_⟩
  · intro hlt
    rw [heq]
    apply div_neg_of_neg_of_pos
    · exact_mod_cast sub_neg.mpr hlt
    · exact hpos
  · intro hgt
    rw [heq, one_lt_div hpos]
    have hlt : julyFirstSecs (y + 1) - julyFirstSecs y < tt.epochSeconds - julyFirstSecs y := by
      omega
    exact_mod_cast hlt
  · intro s hs
    unfold fiscal_progress_calc
    simp only [hs]

/-- C10 witness: the naive timestamp 2024-01-01T12:00:00 with fiscal
year "2023" gets the exact signed ratio. -/
theorem C10_witness :
    parseFiscalYear "2023" = some 2023 ∧
    dtNoonNaive.tzOffset = none ∧
    fiscal_progress_calc dtNoonNaive "2023" =
      ((dtNoonNaive.epochSeconds - julyFirstSecs 2023 : Int) : ℚ) /
        ((julyFirstSecs (2023 + 1) - julyFirstSecs 2023 : Int) : ℚ) :=
  ⟨by decide, rfl,
    (C10_fiscal_progress_unclamped dtNoonNaive "2023" 2023 (by decide) (by decide) rfl).1⟩

/-- C10 counterexample: for the offset-aware timestamp
2024-01-01T12:00:00Z the fiscal year "2023" parses, yet the code
returns the 0.5 default (the aware-minus-naive subtraction raises
inside the `try`), and 0.5 differs from the signed ratio the claim
prescribes (which is 123/244 here). -/
theorem C10_counterexample :
    parseFiscalYear "2023" = some 2023 ∧
    fiscal_progress_calc dtNoonZ "2023" = 0.5 ∧
    ((dtNoonZ.epochSeconds - dtNoonZ.tzOffset.getD 0 - julyFirstSecs 2023 : Int) : ℚ) /
        ((julyFirstSecs (2023 + 1) - julyFirstSecs 2023 : Int) : ℚ) ≠ 0.5 :=
  ⟨by decide, by decide, by decide⟩

/-- C3 (amended): the returned `anomaly_score` is sklearn's
`score_samples` value, the NEGATION of the paper's (0,1] score: for
every model and input it satisfies -1 ≤ score < 0, and values closer
to -1 (lower) indicate more anomalous inputs.  The claimed
`0 < score ≤ 1` never holds. -/
theorem C3_score_range (fm : ForestModel) (sc : ScalerState) (f : Features)
    (row : List ℚ) :
    -1 ≤ (detect_core fm sc f row).anomaly_score ∧
    (detect_core fm sc f row).anomaly_score < 0 := by
  constructor
  · exact score_samples_ge_neg_one fm (sc.transform row)
  · exact score_samples_lt_zero fm (sc.transform row)

/-- C3 counterexample: at a concrete model and feature row the claimed
bound `0 < anomaly_score ≤ 1` is false. -/
theorem C3_counterexample :
    ¬(0 < (detect_core fm0 idScaler f0 []).anomaly_score ∧
      (detect_core fm0 idScaler f0 []).anomaly_score ≤ 1) := by
  intro hc
  have h := score_samples_lt_zero fm0 (idScaler.transform [])
  have he : (detect_core fm0 idScaler f0 []).anomaly_score =
      score_samples fm0 (idScaler.transform []) := rfl
  rw [he] at hc
  linarith [hc.1]

/-- C4 (amended): `is_anomaly` is true iff `anomaly_score` is STRICTLY
BELOW the decision threshold (sklearn `predict == -1` iff
`score_samples(x) - offset_ < 0`), where the threshold is `offset_`,
computed at fit time as the contamination quantile (0.05, the 5th
percentile) of `score_samples` over the training batch itself.  The
claimed `anomaly_score ≥ threshold` characterisation is wrong both in
direction and in strictness. -/
theorem C4_threshold_strict (seed : ℕ) (X : List (List ℝ)) (sc : ScalerState)
    (f : Features) (row : List ℚ) :
    (detect_core (fit_isolation_forest seed X) sc f row).is_anomaly = true ↔
      (detect_core (fit_isolation_forest seed X) sc f row).anomaly_score <
        np_percentile 5 (training_scores seed X) := by
  have h1 : (detect_core (fit_isolation_forest seed X) sc f row).is_anomaly =
      decide (score_samples (fit_isolation_forest seed X) (sc.transform row) -
        (fit_isolation_forest seed X).offset < 0) := rfl
  have h2 : (detect_core (fit_isolation_forest seed X) sc f row).anomaly_score =
      score_samples (fit_isolation_forest seed X) (sc.transform row) := rfl
  have h3 : (fit_isolation_forest seed X).offset =
      np_percentile 5 (training_scores seed X) := rfl
  rw [h1, h2, decide_eq_true_eq, sub_neg, h3]

/-- C4 counterexample: a model fit on the single training row [0] has
its threshold equal to that row's own score, so scoring the same point
yields `anomaly_score ≥ threshold` — the claim then demands
`is_anomaly = true`, but the code's strict `<` decision returns
`is_anomaly = false`. -/
theorem C4_counterexample :
    (fit_isolation_forest 42 [[0]]).offset ≤
      (detect_core (fit_isolation_forest 42 [[0]]) idScaler f0 [0]).anomaly_score ∧
    (detect_core (fit_isolation_forest 42 [[0]]) idScaler f0 [0]).is_anomaly = false := by
  have htr : idScaler.transform [0] = [(0 : ℝ)] := by
    simp [idScaler, ScalerState.transform]
  have hks : score_samples (fit_isolation_forest 42 [[0]]) [(0 : ℝ)] =
      np_percentile 5 (training_scores 42 [[0]]) := by
    have h2 : training_scores 42 [[0]] =
        [score_samples ⟨build_forest 42 [[0]],
          min 256 ([[(0 : ℝ)]] : List (List ℝ)).length, 0⟩ [(0 : ℝ)]] := rfl
    rw [h2, np_percentile_singleton]
    rfl
  have hoff : (fit_isolation_forest 42 [[0]]).offset =
      np_percentile 5 (training_scores 42 [[0]]) := rfl
  have hscore : (detect_core (fit_isolation_forest 42 [[0]]) idScaler f0 [0]).anomaly_score =
      np_percentile 5 (training_scores 42 [[0]]) := by
    have h0 : (detect_core (fit_isolation_forest 42 [[0]]) idScaler f0 [0]).anomaly_score =
        score_samples (fit_isolation_forest 42 [[0]]) (idScaler.transform [0]) := rfl
    rw [h0, htr, hks]
  constructor
  · rw [hscore, hoff]
  · have hA : (detect_core (fit_isolation_forest 42 [[0]]) idScaler f0 [0]).is_anomaly =
        decide (score_samples (fit_isolation_forest 42 [[0]]) (idScaler.transform [0]) -
          (fit_isolation_forest 42 [[0]]).offset < 0) := rfl
    rw [hA, htr, hks, hoff]
    simp

/-- C8: a reason string is attached exactly when `is_anomaly` is true
(absent otherwise) and equals `generate_anomaly_reason` on the RAW
feature values; the sequential if-chain of `generate_anomaly_reason`
computes exactly the messages of all matching rules of the fixed table,
in order and without short-circuit, joined by the fixed separator, with
the generic fallback message exactly when no rule matches. -/
theorem C8_reason_rules (fm : ForestModel) (sc : ScalerState) (f : Features)
    (row : List ℚ) :
    ((detect_core fm sc f row).reason.isSome ↔ (detect_core fm sc f row).is_anomaly = true) ∧
    ((detect_core fm sc f row).is_anomaly = true →
      (detect_core fm sc f row).reason = some (generate_anomaly_reason f)) ∧
    anomaly_reason_list f = matchedMessages f ∧
    generate_anomaly_reason f = String.intercalate " | "
      (if matchedMessages f = [] then ["General anomalous pattern detected"]
       else matchedMessages f) := by
  have hstep : ∀ (p : Prop) (inst : Decidable p) (l : List String) (m : String),
      (@ite _ p inst (l ++ [m]) l) = l ++ (@ite _ p inst [m] []) := by
    intro p inst l m
    by_cases h : p
    · simp [h]
    · simp [h]
  have hcons : ∀ (q : (Features → Bool) × String → Bool) (x : (Features → Bool) × String)
      (l : List ((Features → Bool) × String)),
      ((x :: l).filter q).map Prod.snd =
        (if q x then [x.2] else []) ++ (l.filter q).map Prod.snd := by
    intro q x l
    by_cases h : q x
    · simp [List.filter_cons, h]
    · simp [List.filter_cons, h]
  have hlist : anomaly_reason_list f = matchedMessages f := by
    simp only [anomaly_reason_list]
    rw [hstep, hstep, hstep, hstep, hstep, hstep, hstep, hstep, hstep]
    simp only [matchedMessages, ruleTable, hcons, List.filter_nil, List.map_nil,
      List.append_nil, decide_eq_true_eq, List.nil_append, List.append_assoc]
  have hgen : generate_anomaly_reason f = String.intercalate " | "
      (if matchedMessages f = [] then ["General anomalous pattern detected"]
       else matchedMessages f) := by
    simp only [generate_anomaly_reason, hlist]
    cases hM : matchedMessages f with
    | nil => simp
    | cons a l => simp
  have h1 : (detect_core fm sc f row).is_anomaly =
      decide (score_samples fm (sc.transform row) - fm.offset < 0) := rfl
  have h2 : (detect_core fm sc f row).reason =
      (if decide (score_samples fm (sc.transform row) - fm.offset < 0) = true then
        some (generate_anomaly_reason f) else none) := rfl
  refine ⟨?_, ?_, hlist, hgen⟩
  · rw [h1, h2]
    cases hA : decide (score_samples fm (sc.transform row) - fm.offset < 0) <;> simp
  · intro hA
    rw [h1] at hA
    rw [h2, hA]
    simp

/-- C8 witness: a model with threshold 0 flags any row (every score is
negative), so the reason is attached and, with no rule matching `f0`,
it is the generic fallback joined form. -/
theorem C8_witness :
    (detect_core fm0 idScaler f0 []).is_anomaly = true ∧
    (detect_core fm0 idScaler f0 []).reason = some (generate_anomaly_reason f0) := by
  have hA : (detect_core fm0 idScaler f0 []).is_anomaly = true := by
    have h1 : (detect_core fm0 idScaler f0 []).is_anomaly =
        decide (score_samples fm0 (idScaler.transform []) - fm0.offset < 0) := rfl
    have hlt : score_samples fm0 (idScaler.transform []) - fm0.offset < 0 := by
      have hoff : fm0.offset = 0 := rfl
      rw [hoff, sub_zero]
      exact score_samples_lt_zero fm0 (idScaler.transform [])
    rw [h1]
    exact decide_eq_true hlt
  exact ⟨hA, (C8_reason_rules fm0 idScaler f0 []).2.1 hA⟩
